import Mathlib

/-!
Verification of the `consul-rust` client (src/lib.rs, src/catalog.rs) against
its natural-language specification.

Shallow embedding conventions:
* JSON values are modelled by the inductive `Json`; only the shapes reachable
  from the entity structs (strings, unsigned integers, booleans, arrays,
  objects, null) are needed.
* serde's derived `Serialize`/`Deserialize` with the container attribute
  `#[serde(default)]` is embedded per struct: serialization emits the wire key
  of every field (the `#[serde(rename = "...")]` value when present, otherwise
  the Rust field name); deserialization looks each wire key up in the object,
  an absent key yields the field's value in the struct's `Default::default()`,
  and keys unknown to the struct are ignored (serde's default behaviour).
* Rust `u32`/`u64` are `Nat` with explicit range checks where decoding cares;
  `Duration` is a `Nat` (seconds); `HashMap` is an association list.
* The request dispatcher (`src/request.rs`), the options/meta payload module
  (`src/common.rs`) and `src/agent.rs` are not part of the sources under
  study; where a claim depends on them they are modelled from the spec, and
  those definitions say so in their doc comment.
-/

/-- JSON values, restricted to the shapes the embedded entity structs use
(numbers are the unsigned integers appearing in `catalog.rs`). -/
inductive Json where
  | null : Json
  | bool : Bool → Json
  | num : Nat → Json
  | str : String → Json
  | arr : List Json → Json
  | obj : List (String × Json) → Json
deriving Repr

/-- Top-level keys of a JSON object (empty for non-objects). -/
def Json.keys : Json → List String
  | .obj fs => fs.map Prod.fst
  | _ => []

/-- Field extraction implementing serde's container-level `#[serde(default)]`:
an absent key yields the supplied default, a present key must decode, and any
other key of the object is ignored. -/
def getFieldD (fs : List (String × Json)) (key : String)
    (dec : Json → Except String α) (dflt : α) : Except String α :=
  match fs.lookup key with
  | none => .ok dflt
  | some v => dec v

/-- Decoder for Rust `String`. -/
def decodeString : Json → Except String String
  | .str s => .ok s
  | _ => .error "expected string"

/-- Decoder for Rust `u32`. -/
def decodeU32 : Json → Except String Nat
  | .num n => if n < 2 ^ 32 then .ok n else .error "u32 out of range"
  | _ => .error "expected u32"

/-- Decoder for Rust `u64`. -/
def decodeU64 : Json → Except String Nat
  | .num n => if n < 2 ^ 64 then .ok n else .error "u64 out of range"
  | _ => .error "expected u64"

/-- Decoder for Rust `bool`. -/
def decodeBool : Json → Except String Bool
  | .bool b => .ok b
  | _ => .error "expected bool"

/-- Decoder for `Vec<String>`. -/
def decodeStringList : Json → Except String (List String)
  | .arr js => js.mapM decodeString
  | _ => .error "expected array"

/-- Decoder for `HashMap<String, String>`. -/
def decodeStringMap : Json → Except String (List (String × String))
  | .obj fs => fs.mapM (fun p => do
      let v ← decodeString p.2
      pure (p.1, v))
  | _ => .error "expected object"

/-- Encoder for `HashMap<String, String>`. -/
def encodeStringMap (m : List (String × String)) : Json :=
  .obj (m.map fun p => (p.1, .str p.2))

/-- Encoder for `Vec<String>`. -/
def encodeStringList (l : List String) : Json :=
  .arr (l.map Json.str)

/-- The `ServiceWeights` struct of `src/catalog.rs` (fields `passing`,
`warning`, both `u32`, no serde renames). -/
structure ServiceWeights where
  passing : Nat
  warning : Nat
deriving DecidableEq, Repr

/-- Derived `Default` for `ServiceWeights`. -/
def ServiceWeights.default : ServiceWeights := ⟨0, 0⟩

/-- Derived `Serialize` for `ServiceWeights`: no rename attributes, so the
wire keys are the Rust field names. -/
def ServiceWeights.toJson (w : ServiceWeights) : Json :=
  .obj [("passing", .num w.passing), ("warning", .num w.warning)]

/-- Derived `Deserialize` for `ServiceWeights` under `#[serde(default)]`. -/
def ServiceWeights.fromJson : Json → Except String ServiceWeights
  | .obj fs => do
      let passing ← getFieldD fs "passing" decodeU32 0
      let warning ← getFieldD fs "warning" decodeU32 0
      pure ⟨passing, warning⟩
  | _ => .error "expected object"

/-- The `Node` struct of `src/catalog.rs`. The first six fields carry
`#[serde(rename = "...")]` attributes; `create_index` and `modify_index`
carry none, so their wire keys are the Rust field names themselves. -/
structure Node where
  id : String
  node : String
  address : String
  datacenter : String
  tagged_addresses : List (String × String)
  meta : List (String × String)
  create_index : Nat
  modify_index : Nat
deriving DecidableEq, Repr

/-- Derived `Default` for `Node`. -/
def Node.default : Node := ⟨"", "", "", "", [], [], 0, 0⟩

/-- Derived `Serialize` for `Node`, emitting each field under its wire key
exactly as the rename attributes in `src/catalog.rs` dictate. -/
def Node.toJson (n : Node) : Json :=
  .obj [("ID", .str n.id),
        ("Node", .str n.node),
        ("Address", .str n.address),
        ("Datacenter", .str n.datacenter),
        ("TaggedAddresses", encodeStringMap n.tagged_addresses),
        ("Meta", encodeStringMap n.meta),
        ("create_index", .num n.create_index),
        ("modify_index", .num n.modify_index)]

/-- Derived `Deserialize` for `Node` under `#[serde(default)]`. -/
def Node.fromJson : Json → Except String Node
  | .obj fs => do
      let id ← getFieldD fs "ID" decodeString ""
      let node ← getFieldD fs "Node" decodeString ""
      let address ← getFieldD fs "Address" decodeString ""
      let datacenter ← getFieldD fs "Datacenter" decodeString ""
      let tagged_addresses ← getFieldD fs "TaggedAddresses" decodeStringMap []
      let meta ← getFieldD fs "Meta" decodeStringMap []
      let create_index ← getFieldD fs "create_index" decodeU64 0
      let modify_index ← getFieldD fs "modify_index" decodeU64 0
      pure ⟨id, node, address, datacenter, tagged_addresses, meta,
            create_index, modify_index⟩
  | _ => .error "expected object"

/-- The `CatalogService` struct of `src/catalog.rs`; every field carries a
`#[serde(rename = "...")]` attribute. -/
structure CatalogService where
  id : String
  node : String
  address : String
  datacenter : String
  tagged_addresses : List (String × String)
  node_meta : List (String × String)
  service_id : String
  service_name : String
  service_address : String
  service_tags : List String
  service_meta : List (String × String)
  service_port : Nat
  service_weights : ServiceWeights
  service_enable_tag_override : Bool
  create_index : Nat
  modify_index : Nat
deriving DecidableEq, Repr

/-- Derived `Default` for `CatalogService`. -/
def CatalogService.default : CatalogService :=
  ⟨"", "", "", "", [], [], "", "", "", [], [], 0, ServiceWeights.default,
   false, 0, 0⟩

/-- Derived `Serialize` for `CatalogService`, using the renamed wire keys of
`src/catalog.rs`. -/
def CatalogService.toJson (s : CatalogService) : Json :=
  .obj [("ID", .str s.id),
        ("Node", .str s.node),
        ("Address", .str s.address),
        ("Datacenter", .str s.datacenter),
        ("TaggedAddresses", encodeStringMap s.tagged_addresses),
        ("NodeMeta", encodeStringMap s.node_meta),
        ("ServiceID", .str s.service_id),
        ("ServiceName", .str s.service_name),
        ("ServiceAddress", .str s.service_address),
        ("ServiceTags", encodeStringList s.service_tags),
        ("ServiceMeta", encodeStringMap s.service_meta),
        ("ServicePort", .num s.service_port),
        ("ServiceWeights", s.service_weights.toJson),
        ("ServiceEnableTagOverride", .bool s.service_enable_tag_override),
        ("CreateIndex", .num s.create_index),
        ("ModifyIndex", .num s.modify_index)]

/-- Derived `Deserialize` for `CatalogService` under `#[serde(default)]`. -/
def CatalogService.fromJson : Json → Except String CatalogService
  | .obj fs => do
      let id ← getFieldD fs "ID" decodeString ""
      let node ← getFieldD fs "Node" decodeString ""
      let address ← getFieldD fs "Address" decodeString ""
      let datacenter ← getFieldD fs "Datacenter" decodeString ""
      let tagged_addresses ← getFieldD fs "TaggedAddresses" decodeStringMap []
      let node_meta ← getFieldD fs "NodeMeta" decodeStringMap []
      let service_id ← getFieldD fs "ServiceID" decodeString ""
      let service_name ← getFieldD fs "ServiceName" decodeString ""
      let service_address ← getFieldD fs "ServiceAddress" decodeString ""
      let service_tags ← getFieldD fs "ServiceTags" decodeStringList []
      let service_meta ← getFieldD fs "ServiceMeta" decodeStringMap []
      let service_port ← getFieldD fs "ServicePort" decodeU32 0
      let service_weights ←
        getFieldD fs "ServiceWeights" ServiceWeights.fromJson ServiceWeights.default
      let service_enable_tag_override ←
        getFieldD fs "ServiceEnableTagOverride" decodeBool false
      let create_index ← getFieldD fs "CreateIndex" decodeU64 0
      let modify_index ← getFieldD fs "ModifyIndex" decodeU64 0
      pure ⟨id, node, address, datacenter, tagged_addresses, node_meta,
            service_id, service_name, service_address, service_tags,
            service_meta, service_port, service_weights,
            service_enable_tag_override, create_index, modify_index⟩
  | _ => .error "expected object"

/-- Modelled from the spec: `AgentService` lives in `src/agent.rs`, which is
not among the sources under study; spec section 3 describes it only as the
service-record value of `CatalogNode`'s name-to-record mapping, so it is
embedded as a record of its raw wire object. -/
structure AgentService where
  raw : Json
deriving Repr

/-- Modelled from the spec: deserialization of `AgentService` (its concrete
field set is outside the studied sources), capturing the raw wire object. -/
def AgentService.fromJson (j : Json) : Except String AgentService :=
  .ok ⟨j⟩

/-- Decoder for `Option<Node>`: serde maps JSON `null` to `None` and any
other value through `Node`'s deserializer. -/
def decodeOptionNode : Json → Except String (Option Node)
  | .null => .ok none
  | j => (Node.fromJson j).map some

/-- Decoder for `HashMap<String, AgentService>`. -/
def decodeServiceMap : Json → Except String (List (String × AgentService))
  | .obj fs => fs.mapM (fun p => do
      let v ← AgentService.fromJson p.2
      pure (p.1, v))
  | _ => .error "expected object"

/-- The `CatalogNode` struct of `src/catalog.rs`: an optional `Node` (wire
key `"Node"`) and a map of service names to records (wire key `"Services"`). -/
structure CatalogNode where
  node : Option Node
  services : List (String × AgentService)
deriving Repr

/-- Derived `Default` for `CatalogNode`. -/
def CatalogNode.default : CatalogNode := ⟨none, []⟩

/-- Derived `Deserialize` for `CatalogNode` under `#[serde(default)]`. -/
def CatalogNode.fromJson : Json → Except String CatalogNode
  | .obj fs => do
      let node ← getFieldD fs "Node" decodeOptionNode none
      let services ← getFieldD fs "Services" decodeServiceMap []
      pure ⟨node, services⟩
  | _ => .error "expected object"

/-- Models Rust `str::starts_with(&str)`: the pattern's character sequence is
a prefix of the receiver's. -/
def rustStartsWith (s p : String) : Bool :=
  p.data.isPrefixOf s.data

/-- The `Config` struct of `src/lib.rs`. The `http_client` field (a reqwest
transport handle, treated by the spec as an external collaborator) carries no
request-construction data and is left out of the embedding; `Duration` is a
`Nat`. -/
structure Config where
  address : String
  datacenter : Option String
  token : Option String
  wait_time : Option Nat
deriving DecidableEq, Repr

/-- The `Default` impl for `Config` in `src/lib.rs`. -/
def Config.default : Config :=
  { address := "http://127.0.0.1:8500", datacenter := none, token := none,
    wait_time := none }

/-- The environment is embedded as a lookup function: `env name` is `some v`
when the variable is set to `v` and `none` when absent (Rust's
`env::var` returning `Err`). -/
def EnvMap : Type := String → Option String

/-- `Config::new_from_env` of `src/lib.rs`: the address comes from
`CONSUL_HTTP_ADDR` (kept verbatim when it starts with `"http"`, prefixed with
`"http://"` otherwise, and defaulting to `"http://127.0.0.1:8500"` when the
variable is absent) and the token from `CONSUL_HTTP_TOKEN`. -/
def Config.new_from_env (env : EnvMap) : Config :=
  let consul_addr :=
    match env "CONSUL_HTTP_ADDR" with
    | some val => if rustStartsWith val "http" then val else "http://" ++ val
    | none => "http://127.0.0.1:8500"
  let consul_token := env "CONSUL_HTTP_TOKEN"
  { address := consul_addr, datacenter := none, token := consul_token,
    wait_time := none }

/-- `Config::new_from_consul_host` of `src/lib.rs`: the address is
`format!("{}:{}", host, port.unwrap_or(8500))` (`u16` port embedded as `Nat`),
the token is passed through, and the remaining fields are `None`. -/
def Config.new_from_consul_host (host : String) (port : Option Nat)
    (token : Option String) : Config :=
  { address := host ++ ":" ++ toString (port.getD 8500), datacenter := none,
    token := token, wait_time := none }

/-- The `ConsulError` enum of `src/lib.rs`; the `reqwest::Error` and
`serde_json::Error` payloads are embedded as their message strings, and the
`StatusCode` payload as the numeric code. -/
inductive ConsulError where
  | HttpError : String → ConsulError
  | RequestFailed : Nat → ConsulError
  | MissingParameter : String → ConsulError
  | EmptyKey : ConsulError
  | DecodeError : String → ConsulError
deriving DecidableEq, Repr

/-- The `QueryOptions` struct of `src/lib.rs` (`Duration` as `Nat`). -/
structure QueryOptions where
  datacenter : Option String
  wait_index : Option Nat
  wait_time : Option Nat
deriving DecidableEq, Repr

/-- The derived `Default` for `QueryOptions`: every `Option` field is
`None`. -/
def QueryOptions.default : QueryOptions :=
  { datacenter := none, wait_index := none, wait_time := none }

/-- HTTP methods used by the catalog trait. -/
inductive Method where
  | get : Method
  | put : Method
deriving DecidableEq, Repr

/-- The arguments a resource-trait method hands to the request dispatcher:
the HTTP method family (`get`/`put` of `src/request.rs`), the endpoint path,
and the fixed extra query parameters (`HashMap::new()` throughout
`src/catalog.rs`). -/
structure DispatchCall where
  method : Method
  path : String
  extraParams : List (String × String)
deriving DecidableEq, Repr

/-- The dispatcher call made by `Catalog::register for Client` in
`src/catalog.rs`: `put("/v1/session/create", Some(reg), &self.config,
HashMap::new(), q)`. -/
def Catalog.registerCall : DispatchCall :=
  { method := .put, path := "/v1/session/create", extraParams := [] }

/-- The dispatcher call made by `Catalog::deregister for Client`. -/
def Catalog.deregisterCall : DispatchCall :=
  { method := .put, path := "/v1/catalog/deregister", extraParams := [] }

/-- The dispatcher call made by `Catalog::list_datacenters for Client`. -/
def Catalog.list_datacenters_call : DispatchCall :=
  { method := .get, path := "/v1/catalog/datacenters", extraParams := [] }

/-- The dispatcher call made by `Catalog::list_datacenter_nodes for
Client`. -/
def Catalog.list_datacenter_nodes_call : DispatchCall :=
  { method := .get, path := "/v1/catalog/nodes", extraParams := [] }

/-- The dispatcher call made by `Catalog::list_datacenter_services for
Client`. -/
def Catalog.list_datacenter_services_call : DispatchCall :=
  { method := .get, path := "/v1/catalog/services", extraParams := [] }

/-- Modelled from the spec: the wait duration the dispatcher sends with a
blocking read (`src/request.rs` is not among the sources under study).
Spec section 4.2 step 1(c): the caller's wait duration when set, otherwise a
fixed five-minute sentinel (embedded in seconds). -/
def waitDuration (q : Option QueryOptions) : Nat :=
  match q with
  | some o => match o.wait_time with
    | some t => t
    | none => 300
  | none => 300

/-- Modelled from the spec: the query parameters the request dispatcher
(`src/request.rs`, not among the sources under study) appends to a read URL.
Spec section 4.2 step 1: fixed extra parameters first, then the datacenter
(per-call override wins over the client default), then — only when a nonzero
wait-index is set — the wait-index and wait-duration pair; section 4.2's edge
policy requires a wait-index of zero to omit the wait parameters entirely. -/
def buildQueryParams (config : Config) (extra : List (String × String))
    (q : Option QueryOptions) : List (String × String) :=
  let optDc : Option String :=
    match q with
    | some o => o.datacenter
    | none => none
  let dcParams : List (String × String) :=
    match optDc with
    | some d => [("dc", d)]
    | none =>
      match config.datacenter with
      | some d => [("dc", d)]
      | none => []
  let optIndex : Option Nat :=
    match q with
    | some o => o.wait_index
    | none => none
  let waitParams : List (String × String) :=
    match optIndex with
    | some i =>
      if i = 0 then []
      else [("index", toString i), ("wait", toString (waitDuration q) ++ "s")]
    | none => []
  extra ++ dcParams ++ waitParams

/-- Modelled from the spec: the `QueryMeta` struct (`src/common.rs`, not
among the sources under study), per spec section 3. -/
structure QueryMeta where
  last_index : Nat
  last_content_hash : Option String
  known_leader : Bool
  request_time : Nat
deriving DecidableEq, Repr

/-- Modelled from the spec: the `WriteMeta` struct (`src/common.rs`, not
among the sources under study): the request round-trip time only. -/
structure WriteMeta where
  request_time : Nat
deriving DecidableEq, Repr

/-- Numeric value of a decimal digit character. -/
def digitVal (c : Char) : Option Nat :=
  if c.isDigit then some (c.toNat - 48) else none

/-- Accumulating decimal parse over a character list; fails on the first
non-digit. -/
def parseDigitsAux : List Char → Nat → Option Nat
  | [], acc => some acc
  | c :: cs, acc =>
    match digitVal c with
    | some d => parseDigitsAux cs (acc * 10 + d)
    | none => none

/-- Parses a header value as an unsigned 64-bit decimal integer (Rust's
`str::parse::<u64>` on a digit string): empty input or any non-digit fails,
and the value must fit in 64 bits. -/
def parseU64 (s : String) : Option Nat :=
  if s.data.isEmpty then none
  else
    match parseDigitsAux s.data 0 with
    | some n => if n < 2 ^ 64 then some n else none
    | none => none

/-- Modelled from the spec: response-header decoding for reads
(`src/request.rs`, not among the sources under study). Spec section 4.2 step
6: the change-index header is parsed as an unsigned 64-bit integer and a
missing or unparseable header is a decode error, never a defaulted value; the
leader-known header parses as a boolean with absence meaning `false`. -/
def parseQueryMeta (headers : List (String × String)) (reqTime : Nat) :
    Except ConsulError QueryMeta :=
  match headers.lookup "X-Consul-Index" with
  | none => .error (.DecodeError "missing X-Consul-Index header")
  | some s =>
    match parseU64 s with
    | none => .error (.DecodeError "unparseable X-Consul-Index header")
    | some idx =>
      .ok { last_index := idx,
            last_content_hash := headers.lookup "X-Consul-Lastcontenthash",
            known_leader :=
              match headers.lookup "X-Consul-Knownleader" with
              | some v => v == "true"
              | none => false,
            request_time := reqTime }

/-- An HTTP status code is a success exactly when it lies in the 2xx
range. -/
def is2xx (status : Nat) : Bool :=
  decide (200 ≤ status) && decide (status < 300)

/-- Modelled from the spec: response interpretation of the dispatcher's read
entry point (`src/request.rs`, not among the sources under study). Spec
section 4.2 steps 5-7: a non-2xx status yields `RequestFailed(status)` with
no body decoding; a 2xx status decodes the index headers and then the body. -/
def handleRead (status : Nat) (headers : List (String × String))
    (reqTime : Nat) (body : Json) (dec : Json → Except String α) :
    Except ConsulError (α × QueryMeta) :=
  if is2xx status then
    match parseQueryMeta headers reqTime with
    | .error e => .error e
    | .ok meta =>
      match dec body with
      | .error e => .error (.DecodeError e)
      | .ok v => .ok (v, meta)
  else .error (.RequestFailed status)

/-- Modelled from the spec: response interpretation of the dispatcher's write
entry point (`src/request.rs`, not among the sources under study). Spec
section 4.2 step 5 and section 3: a non-2xx status yields
`RequestFailed(status)` with no body decoding; writes carry no index
semantics. -/
def handleWrite (status : Nat) (reqTime : Nat) (body : Json)
    (dec : Json → Except String α) : Except ConsulError (α × WriteMeta) :=
  if is2xx status then
    match dec body with
    | .error e => .error (.DecodeError e)
    | .ok v => .ok (v, { request_time := reqTime })
  else .error (.RequestFailed status)

/-- Bind on `Except` reduces on an `ok` value. -/
theorem except_ok_bind (a : α) (f : α → Except ε β) :
    (Except.ok a >>= f : Except ε β) = f a := rfl

/-- Prefixing any string with `"http://"` yields a string that starts with
`"http"`. -/
theorem rustStartsWith_http_prepend (v : String) :
    rustStartsWith ("http://" ++ v) "http" = true := by
  simp [rustStartsWith, String.data_append, List.isPrefixOf]

/-- Every address `Config::new_from_env` produces begins with `"http"`: a
value starting with `"http"` is kept, any other value is prefixed with
`"http://"`, and the fallback literal starts with `"http"`. -/
theorem new_from_env_address_starts_http (env : EnvMap) :
    rustStartsWith (Config.new_from_env env).address "http" = true := by
  unfold Config.new_from_env
  cases haddr : env "CONSUL_HTTP_ADDR" with
  | none => simp [haddr]; decide
  | some v =>
    by_cases hv : rustStartsWith v "http" = true
    · simp [haddr, hv]
    · simp [haddr, hv, rustStartsWith_http_prepend]

/-- C1: the claim states that `Catalog::register` dispatches its write to
`/v1/catalog/register`; the implementation in `src/catalog.rs` dispatches it
to `/v1/session/create` (with no extra query parameters), contradicting the
method's own doc comment, which cites the catalog-register API. This theorem
evaluates the dispatcher call the code makes. -/
theorem register_call_targets_session_create :
    Catalog.registerCall.method = Method.put ∧
    Catalog.registerCall.path = "/v1/session/create" ∧
    Catalog.registerCall.path ≠ "/v1/catalog/register" ∧
    Catalog.registerCall.extraParams = [] := by
  refine ⟨rfl, rfl, ?_, rfl⟩
  decide

/-- C2: the claim states that every field of every entity struct uses the
server's PascalCase wire key, in particular `CreateIndex`/`ModifyIndex` on
`Node`. In the code, `Node.create_index` and `Node.modify_index` (and both
`ServiceWeights` fields) carry no serde rename, so they serialize under
their snake_case Rust names and a PascalCase `CreateIndex` key on the wire is
ignored on decode, while `CatalogService` does rename every field. -/
theorem node_serialization_uses_snake_case_index_keys :
    (Node.toJson Node.default).keys =
      ["ID", "Node", "Address", "Datacenter", "TaggedAddresses", "Meta",
       "create_index", "modify_index"] ∧
    "CreateIndex" ∉ (Node.toJson Node.default).keys ∧
    "ModifyIndex" ∉ (Node.toJson Node.default).keys ∧
    Node.fromJson (.obj [("CreateIndex", .num 5), ("ModifyIndex", .num 7)]) =
      .ok Node.default ∧
    (ServiceWeights.toJson ServiceWeights.default).keys =
      ["passing", "warning"] ∧
    (CatalogService.toJson CatalogService.default).keys =
      ["ID", "Node", "Address", "Datacenter", "TaggedAddresses", "NodeMeta",
       "ServiceID", "ServiceName", "ServiceAddress", "ServiceTags",
       "ServiceMeta", "ServicePort", "ServiceWeights",
       "ServiceEnableTagOverride", "CreateIndex", "ModifyIndex"] := by
  refine ⟨rfl, ?_, ?_, rfl, rfl, rfl⟩ <;> decide

/-- C3: decoding a wire object that omits fields of an entity struct, or
contains only fields unknown to it, succeeds and fills each absent field
with its default value (serde container-level `default`, unknown keys
ignored) — shown generally for `ServiceWeights`, `Node` and `CatalogNode`,
and concretely for the empty JSON object. -/
theorem absent_and_unknown_fields_decode_to_default :
    (∀ fs : List (String × Json),
      fs.lookup "passing" = none → fs.lookup "warning" = none →
      ServiceWeights.fromJson (.obj fs) = .ok ServiceWeights.default) ∧
    (∀ fs : List (String × Json),
      fs.lookup "ID" = none → fs.lookup "Node" = none →
      fs.lookup "Address" = none → fs.lookup "Datacenter" = none →
      fs.lookup "TaggedAddresses" = none → fs.lookup "Meta" = none →
      fs.lookup "create_index" = none → fs.lookup "modify_index" = none →
      Node.fromJson (.obj fs) = .ok Node.default) ∧
    (∀ fs : List (String × Json),
      fs.lookup "Node" = none → fs.lookup "Services" = none →
      CatalogNode.fromJson (.obj fs) = .ok CatalogNode.default) ∧
    ServiceWeights.fromJson (.obj []) = .ok ServiceWeights.default ∧
    Node.fromJson (.obj []) = .ok Node.default ∧
    CatalogNode.fromJson (.obj []) = .ok CatalogNode.default := by
  refine ⟨?_, ?_, ?_, rfl, rfl, rfl⟩
  · intro fs h1 h2
    simp [ServiceWeights.fromJson, getFieldD, h1, h2, except_ok_bind,
      ServiceWeights.default]
  · intro fs h1 h2 h3 h4 h5 h6 h7 h8
    simp [Node.fromJson, getFieldD, h1, h2, h3, h4, h5, h6, h7, h8,
      except_ok_bind, Node.default]
  · intro fs h1 h2
    simp [CatalogNode.fromJson, getFieldD, h1, h2, except_ok_bind,
      CatalogNode.default]

/-- C3 witness: a wire object carrying only a field unknown to `CatalogNode`
decodes to the default value. -/
theorem absent_and_unknown_fields_decode_to_default_witness :
    CatalogNode.fromJson (.obj [("Unknown", Json.null)]) =
      .ok CatalogNode.default :=
  absent_and_unknown_fields_decode_to_default.2.2.1
    [("Unknown", Json.null)] rfl rfl

/-- C4: serializing `ServiceWeights::default()` to the wire format and
decoding the result yields `ServiceWeights::default()` back. -/
theorem serviceweights_default_roundtrip :
    ServiceWeights.fromJson (ServiceWeights.toJson ServiceWeights.default) =
      .ok ServiceWeights.default := rfl

/-- C5: `QueryOptions::default()` sets no datacenter override, no wait-index
and no wait duration, and for every read the dispatcher builds identical
query parameters from `None` options and from default options — a
non-blocking request whose datacenter parameter comes from the client's
configured default. -/
theorem default_query_options_equivalent_to_none :
    QueryOptions.default.datacenter = none ∧
    QueryOptions.default.wait_index = none ∧
    QueryOptions.default.wait_time = none ∧
    (∀ (config : Config) (extra : List (String × String)),
      buildQueryParams config extra none =
        buildQueryParams config extra (some QueryOptions.default)) ∧
    (∀ (config : Config) (extra : List (String × String)),
      buildQueryParams config extra none =
        extra ++
          match config.datacenter with
          | some d => [("dc", d)]
          | none => []) := by
  refine ⟨rfl, rfl, rfl, fun c e => rfl, fun c e => ?_⟩
  simp [buildQueryParams]

/-- C6: a wait-index of zero produces exactly the query parameters of an
absent wait-index, and in particular neither a wait-index nor a
wait-duration parameter is emitted. -/
theorem wait_index_zero_equals_absent :
    (∀ (config : Config) (extra : List (String × String))
        (dc : Option String) (wt : Option Nat),
      buildQueryParams config extra (some ⟨dc, some 0, wt⟩) =
        buildQueryParams config extra (some ⟨dc, none, wt⟩)) ∧
    (∀ (config : Config) (dc : Option String) (wt : Option Nat),
      (buildQueryParams config [] (some ⟨dc, some 0, wt⟩)).all
        (fun p => p.1 != "index" && p.1 != "wait") = true) := by
  refine ⟨fun c e dc wt => by simp [buildQueryParams], fun c dc wt => ?_⟩
  cases dc with
  | some d => simp [buildQueryParams]
  | none =>
    cases h : c.datacenter with
    | some d => simp [buildQueryParams, h]
    | none => simp [buildQueryParams, h]

/-- C7: a response with a non-2xx status is returned as `RequestFailed` with
that literal status code, and the body is never decoded — the result is
independent of the body and of the decoder, for both dispatcher entry
points; only a 2xx status proceeds to decoding. -/
theorem non_2xx_yields_request_failed (α : Type) (status : Nat)
    (h : is2xx status = false) :
    (∀ (headers : List (String × String)) (reqTime : Nat) (body : Json)
        (dec : Json → Except String α),
      handleRead status headers reqTime body dec =
        .error (.RequestFailed status)) ∧
    (∀ (reqTime : Nat) (body : Json) (dec : Json → Except String α),
      handleWrite status reqTime body dec =
        .error (.RequestFailed status)) := by
  constructor
  · intro headers reqTime body dec
    simp [handleRead, h]
  · intro reqTime body dec
    simp [handleWrite, h]

/-- C7 witness: a 500 response whose body is valid JSON yields
`RequestFailed 500` from both dispatcher entry points, even though the
change-index header is present and the body would decode. -/
theorem non_2xx_yields_request_failed_witness :
    handleRead 500 [("X-Consul-Index", "42")] 0 (Json.obj [])
      ServiceWeights.fromJson = .error (.RequestFailed 500) ∧
    handleWrite 500 0 (Json.obj []) ServiceWeights.fromJson =
      .error (.RequestFailed 500) :=
  ⟨(non_2xx_yields_request_failed ServiceWeights 500 rfl).1
      [("X-Consul-Index", "42")] 0 (Json.obj []) ServiceWeights.fromJson,
   (non_2xx_yields_request_failed ServiceWeights 500 rfl).2
      0 (Json.obj []) ServiceWeights.fromJson⟩

/-- C8: on a successful read the change-index header is parsed as an
unsigned 64-bit integer into `QueryMeta.last_index` (any returned meta's
index comes from the header, never a silent default), while a missing or
unparseable header yields a `DecodeError`, also through the read entry point
on a 2xx response. -/
theorem last_index_from_header_never_defaulted :
    (∀ (headers : List (String × String)) (reqTime : Nat) (m : QueryMeta),
      parseQueryMeta headers reqTime = .ok m →
      ∃ s, headers.lookup "X-Consul-Index" = some s ∧
        parseU64 s = some m.last_index) ∧
    (∀ (headers : List (String × String)) (reqTime : Nat),
      headers.lookup "X-Consul-Index" = none →
      parseQueryMeta headers reqTime =
        .error (.DecodeError "missing X-Consul-Index header")) ∧
    (∀ (headers : List (String × String)) (reqTime : Nat) (s : String),
      headers.lookup "X-Consul-Index" = some s → parseU64 s = none →
      parseQueryMeta headers reqTime =
        .error (.DecodeError "unparseable X-Consul-Index header")) ∧
    (∀ (status reqTime : Nat) (headers : List (String × String))
        (body : Json) (dec : Json → Except String (List String)),
      is2xx status = true → headers.lookup "X-Consul-Index" = none →
      handleRead status headers reqTime body dec =
        .error (.DecodeError "missing X-Consul-Index header")) := by
  refine ⟨?_, ?_, ?_, ?_⟩
  · intro headers reqTime m hm
    unfold parseQueryMeta at hm
    cases hl : headers.lookup "X-Consul-Index" with
    | none => simp [hl] at hm
    | some s =>
      simp only [hl] at hm
      cases hp : parseU64 s with
      | none => simp [hp] at hm
      | some idx =>
        simp only [hp, Except.ok.injEq] at hm
        subst hm
        exact ⟨s, rfl, by simp [hp]⟩
  · intro headers reqTime h
    simp [parseQueryMeta, h]
  · intro headers reqTime s h1 h2
    simp [parseQueryMeta, h1, h2]
  · intro status reqTime headers body dec h1 h2
    simp [handleRead, h1, parseQueryMeta, h2]

/-- C8 witness: a read response carrying the change-index header `"42"` has
its parsed value `42` as the returned `last_index`, obtained by applying the
theorem at that concrete response. -/
theorem last_index_from_header_never_defaulted_witness :
    ∃ s, ([("X-Consul-Index", "42")] : List (String × String)).lookup
        "X-Consul-Index" = some s ∧ parseU64 s = some 42 :=
  last_index_from_header_never_defaulted.1 [("X-Consul-Index", "42")] 0
    { last_index := 42, last_content_hash := none, known_leader := false,
      request_time := 0 } rfl

/-- C9: `Config::new_from_env` defaults the address to
`http://127.0.0.1:8500` when `CONSUL_HTTP_ADDR` is absent, and leaves the
token unset when `CONSUL_HTTP_TOKEN` is absent. -/
theorem new_from_env_absent_vars_defaults (env : EnvMap) :
    (env "CONSUL_HTTP_ADDR" = none →
      (Config.new_from_env env).address = "http://127.0.0.1:8500") ∧
    (env "CONSUL_HTTP_TOKEN" = none →
      (Config.new_from_env env).token = none) := by
  constructor
  · intro h
    simp [Config.new_from_env, h]
  · intro h
    simp [Config.new_from_env, h]

/-- C9 witness: with an empty environment the configuration is the loopback
default with no token. -/
theorem new_from_env_absent_vars_defaults_witness :
    (Config.new_from_env (fun _ => none)).address =
      "http://127.0.0.1:8500" ∧
    (Config.new_from_env (fun _ => none)).token = none :=
  ⟨(new_from_env_absent_vars_defaults (fun _ => none)).1 rfl,
   (new_from_env_absent_vars_defaults (fun _ => none)).2 rfl⟩

/-- C10: `Config::new_from_consul_host` sets the address to `host:port` with
the port defaulting to 8500, leaves datacenter and wait time unset, passes
the token through unchanged, and prepends no URL scheme — unlike
`Config::new_from_env` and the `Default` config, whose addresses always
begin with `"http"`. -/
theorem new_from_consul_host_spec :
    (∀ (host : String) (port : Option Nat) (token : Option String),
      (Config.new_from_consul_host host port token).address =
        host ++ ":" ++ toString (port.getD 8500) ∧
      (Config.new_from_consul_host host port token).datacenter = none ∧
      (Config.new_from_consul_host host port token).wait_time = none ∧
      (Config.new_from_consul_host host port token).token = token) ∧
    (∀ env : EnvMap,
      rustStartsWith (Config.new_from_env env).address "http" = true) ∧
    rustStartsWith Config.default.address "http" = true ∧
    rustStartsWith
      (Config.new_from_consul_host "localhost" none none).address "http" =
      false := by
  refine ⟨fun h p t => ⟨rfl, rfl, rfl, rfl⟩,
    new_from_env_address_starts_http, by decide, by decide⟩
